import Mathlib

set_option maxRecDepth 40000
set_option maxHeartbeats 2000000

/-!
Verification development for the YouTube channel enrichment pipeline
(`02_data_preparation/enrichment_pipeline.py`).

Texts are modelled as lists of characters, times as integer seconds, and
Python floats as exact rationals (every float literal used by the pipeline
is a small decimal and every comparison it performs is far from the float
rounding error, so the rational model decides each comparison the same way).
-/

abbrev Str := List Char

/-- Lowercase a text character by character (model of Python `str.lower()`
on the ASCII texts handled by the pipeline). -/
def strLower (s : Str) : Str := List.map Char.toLower s

/-- `hasPref needle hay` is true when `needle` is a prefix of `hay`. -/
def hasPref : Str → Str → Bool
  | [], _ => true
  | _ :: _, [] => false
  | a :: n, b :: h => a == b && hasPref n h

/-- `strIn needle hay` models the Python substring test `needle in hay`. -/
def strIn : Str → Str → Bool
  | n, [] => hasPref n []
  | n, c :: t => hasPref n (c :: t) || strIn n t

/-- Model of Python `" ".join(parts)`. -/
def joinSpace : List Str → Str
  | [] => []
  | [x] => x
  | x :: y :: rest => x ++ (" ".toList) ++ joinSpace (y :: rest)

-- ---------------------------------------------------------------------------
-- Maturity Scorer: `analyze_content_maturity` (enrichment_pipeline.py:401-548)
-- ---------------------------------------------------------------------------

def educational_keywords : List Str := List.map String.toList
  ["tutorial", "learn", "education", "lesson", "course", "study", "school", "university",
   "science", "history", "math", "physics", "chemistry", "biology", "geography",
   "recipe", "cooking", "how to", "diy", "instructions", "guide", "explained",
   "documentary", "facts", "research", "analysis", "academic", "scholarly"]

def explicit_adult_keywords : List Str := List.map String.toList
  ["porn", "sex", "nude", "naked", "explicit", "nsfw", "adult only", "18+",
   "onlyfans", "escort", "prostitute", "stripper", "cam girl", "xxx", "sexy",
   "bikini", "underwear", "lingerie", "fetish", "erotic", "seduction"]

def drama_keywords : List Str := List.map String.toList
  ["drama", "exposed", "controversy", "scandal", "beef", "calling out", "destroyed",
   "roasted", "cancelled", "toxic", "problematic", "allegations", "lawsuit",
   "predator", "grooming", "harassment", "abuse", "assault", "criminal", "arrest",
   "court", "police", "investigation", "victim", "stalking", "threatening"]

def adult_personality_keywords : List Str := List.map String.toList
  ["drunk", "drinking", "alcohol", "party", "club", "bar", "wasted", "hangover",
   "smoking", "vape", "weed", "drugs", "high", "stoned", "pills", "cocaine",
   "gambling", "casino", "bet", "poker", "strip club", "hookup", "dating app",
   "tinder", "bumble", "relationship drama", "cheating", "affair", "breakup"]

def mature_themes_keywords : List Str := List.map String.toList
  ["depression", "suicide", "self harm", "cutting", "mental health crisis",
   "eating disorder", "anorexia", "bulimia", "addiction", "rehab", "therapy",
   "violence", "fight", "beating", "blood", "gore", "murder", "death", "kill"]

def mature_gaming_keywords : List Str := List.map String.toList
  ["call of duty", "grand theft auto", "gta", "mortal kombat", "resident evil",
   "doom", "battlefield", "dead space", "outlast", "horror game", "rated m",
   "mature rating", "violent game", "shooter", "fps"]

def profanity_keywords : List Str := List.map String.toList
  ["fuck", "shit", "damn", "hell", "ass", "bitch", "bastard", "piss", "crap"]

/-- One pass `for keyword in kws: if keyword in text: count += w` starting
from count 0; each present keyword adds weight `w`. -/
def countPresentW (w : Nat) (kws : List Str) (text : Str) : Nat :=
  List.foldl (fun acc kw => if strIn kw text then acc + w else acc) 0 kws

/-- One sampled video: `title`, `description` and `tags` fields of the
snippet dict (absent fields default to the empty string / empty list,
mirroring `video.get(...)`). -/
structure Video where
  title : Str
  description : Str
  tags : List Str

/-- The text a video contributes:
`f"{title} {description} {tags}"` with `title`/`description` lowercased,
the description truncated to its first 500 characters after lowercasing,
and the tags joined by spaces then lowercased. -/
def videoText (v : Video) : Str :=
  strLower v.title ++ (" ".toList) ++ List.take 500 (strLower v.description)
    ++ (" ".toList) ++ strLower (joinSpace v.tags)

/-- The seven running counters of `analyze_content_maturity`. -/
structure MaturityCounts where
  educational_count : Nat
  explicit_count : Nat
  drama_count : Nat
  mature_gaming_count : Nat
  profanity_count : Nat
  adult_personality_count : Nat
  mature_themes_count : Nat

/-- Counter state after the channel-description loops
(enrichment_pipeline.py:463-481).  Only five categories are counted in the
channel description; the mature-gaming and profanity counters are left at 0
there. -/
def countsInit (channel_text : Str) : MaturityCounts where
  educational_count := countPresentW 2 educational_keywords channel_text
  explicit_count := countPresentW 3 explicit_adult_keywords channel_text
  drama_count := countPresentW 2 drama_keywords channel_text
  mature_gaming_count := 0
  profanity_count := 0
  adult_personality_count := countPresentW 2 adult_personality_keywords channel_text
  mature_themes_count := countPresentW 2 mature_themes_keywords channel_text

/-- Counter update contributed by one video
(enrichment_pipeline.py:484-518): every category counts present keywords
with weight 1 in the combined video text. -/
def countsStep (c : MaturityCounts) (v : Video) : MaturityCounts :=
  let t := videoText v
  { educational_count := c.educational_count + countPresentW 1 educational_keywords t
    explicit_count := c.explicit_count + countPresentW 1 explicit_adult_keywords t
    drama_count := c.drama_count + countPresentW 1 drama_keywords t
    mature_gaming_count := c.mature_gaming_count + countPresentW 1 mature_gaming_keywords t
    profanity_count := c.profanity_count + countPresentW 1 profanity_keywords t
    adult_personality_count := c.adult_personality_count + countPresentW 1 adult_personality_keywords t
    mature_themes_count := c.mature_themes_count + countPresentW 1 mature_themes_keywords t }

/-- The result dict of `analyze_content_maturity`
(enrichment_pipeline.py:525-548).  Fields keep the dict keys.  The float
weights 0.5, 0.7, 0.4, 0.3, 0.2 are modelled as exact rationals. -/
structure MaturityAnalysis where
  is_educational_content : Bool
  is_explicit_adult_content : Bool
  is_drama_controversy_heavy : Bool
  is_mature_gaming_focused : Bool
  is_adult_personality_heavy : Bool
  is_mature_themes_heavy : Bool
  mature_language_detected : Bool
  adult_keywords_detected : Bool
  gaming_mature_rating : Bool
  profanity_frequency : Nat
  adult_keyword_frequency : Nat
  mature_game_count : Nat
  educational_score : Nat
  drama_score : Nat
  adult_personality_score : Nat
  mature_themes_score : Nat
  total_adult_content_score : Rat

/-- Model of `analyze_content_maturity(videos, channel_description)`
(enrichment_pipeline.py:401-548). -/
def analyze_content_maturity (videos : List Video) (channel_description : Str) : MaturityAnalysis :=
  let c := List.foldl countsStep (countsInit (strLower channel_description)) videos
  let video_count : Nat := if videos.isEmpty then 1 else videos.length
  let adult_content_score : Rat :=
    (c.explicit_count : Rat) + (c.adult_personality_count : Rat) * (1/2)
      + (c.mature_themes_count : Rat) * (7/10)
  { is_educational_content :=
      decide (max (3 : Rat) ((video_count : Rat) * (4/10)) ≤ (c.educational_count : Rat))
    is_explicit_adult_content :=
      decide (1 ≤ c.explicit_count) || decide ((2 : Rat) ≤ adult_content_score)
    is_drama_controversy_heavy :=
      decide (max (2 : Rat) ((video_count : Rat) * (3/10)) ≤ (c.drama_count : Rat))
    is_mature_gaming_focused :=
      decide (max (2 : Rat) ((video_count : Rat) * (3/10)) ≤ (c.mature_gaming_count : Rat))
    is_adult_personality_heavy :=
      decide (max (2 : Rat) ((video_count : Rat) * (2/10)) ≤ (c.adult_personality_count : Rat))
    is_mature_themes_heavy :=
      decide (max (2 : Rat) ((video_count : Rat) * (2/10)) ≤ (c.mature_themes_count : Rat))
    mature_language_detected := decide (1 ≤ c.profanity_count)
    adult_keywords_detected :=
      decide (1 ≤ c.explicit_count) || decide ((2 : Rat) ≤ adult_content_score)
    gaming_mature_rating := decide (1 ≤ c.mature_gaming_count)
    profanity_frequency := c.profanity_count
    adult_keyword_frequency := c.explicit_count
    mature_game_count := c.mature_gaming_count
    educational_score := c.educational_count
    drama_score := c.drama_count
    adult_personality_score := c.adult_personality_count
    mature_themes_score := c.mature_themes_count
    total_adult_content_score := adult_content_score }

-- ---------------------------------------------------------------------------
-- Adjudicator: `adjudicate_evidence` (enrichment_pipeline.py:554-596)
-- ---------------------------------------------------------------------------

/-- The evidence bag consumed by `adjudicate_evidence`.  Keys it reads via
`evidence.get(...)` become fields: optional numeric signals are `Option Nat`
(`none` models both a missing key and Python `None`), boolean signals are
`Bool` (a missing key and `False` are both falsy, hence `false`), and the
two counters read with `.get(key, 0)` default to 0 / the zero rational. -/
structure EvidenceBag where
  made_for_kids : Bool := false
  common_sense_age : Option Nat := none
  kidsafe : Bool := false
  yt_agerestricted : Bool := false
  video_board_max_age : Option Nat := none
  is_educational_content : Bool := false
  is_explicit_adult_content : Bool := false
  is_drama_controversy_heavy : Bool := false
  is_adult_personality_heavy : Bool := false
  is_mature_themes_heavy : Bool := false
  is_mature_gaming_focused : Bool := false
  total_adult_content_score : Rat := 0
  adult_keywords_detected : Bool := false
  adult_keyword_frequency : Nat := 0
  mature_language_detected : Bool := false
  profanity_frequency : Nat := 0
  gaming_mature_rating : Bool := false
  mature_game_count : Nat := 0

/-- Python truthiness of an optional integer signal:
`None` and `0` are falsy, every other value is truthy. -/
def pyTruthy : Option Nat → Bool
  | none => false
  | some n => n != 0

/-- Model of the f-string `f"...: {x:.1f}"` fragment for the nonnegative
tenth-valued scores produced by the scorer: one digit after the decimal
point, rounding to the nearest tenth. -/
def fmt1 (q : Rat) : Str :=
  let n : Nat := (Rat.floor (q * 10 + 1/2)).toNat
  Nat.toDigits 10 (n / 10) ++ (".".toList) ++ Nat.toDigits 10 (n % 10)

/-- Model of `adjudicate_evidence(evidence, channel_name)` — the
`channel_name` parameter is unused by the source function.  Returns the
`(min_age, source_label, short_note)` triple. -/
def adjudicate_evidence (e : EvidenceBag) : Nat × Str × Str :=
  if e.made_for_kids then
    (3, "YouTube_madeForKids".toList, "Channel flagged Made for Kids in YouTube Data API".toList)
  else if pyTruthy e.common_sense_age then
    (e.common_sense_age.getD 0, "CommonSenseMedia".toList, "CSM recommended age".toList)
  else if e.kidsafe then
    (4, "kidSAFE".toList, "Listed as kidSAFE certified".toList)
  else if e.yt_agerestricted then
    (18, "YouTube_AgeRestricted".toList, "Majority content age-restricted".toList)
  else if pyTruthy e.video_board_max_age then
    (e.video_board_max_age.getD 0, "RegionalBoardMax".toList, "Max rating across recent uploads".toList)
  else if e.is_educational_content then
    (13, "EducationalContent".toList, "Educational/instructional content detected".toList)
  else if e.is_explicit_adult_content then
    (18, "ExplicitContent".toList, "Explicit adult content detected".toList)
  else if e.is_drama_controversy_heavy then
    (18, "DramaContent".toList, "Heavy drama/controversy content detected".toList)
  else if e.is_adult_personality_heavy then
    (18, "AdultPersonality".toList, "Adult lifestyle/personality content detected".toList)
  else if e.is_mature_themes_heavy then
    (17, "MatureThemes".toList, "Mature themes (violence, mental health) detected".toList)
  else if e.is_mature_gaming_focused then
    (17, "MatureGaming".toList, "Mature gaming content focus detected".toList)
  else if decide ((3 : Rat) ≤ e.total_adult_content_score) then
    (18, "AdultContentScore".toList,
      "High adult content score: ".toList ++ fmt1 e.total_adult_content_score)
  else if e.adult_keywords_detected && decide (2 ≤ e.adult_keyword_frequency) then
    (18, "AdultKeywords".toList, "Multiple adult-oriented keywords detected".toList)
  else if e.mature_language_detected && decide (3 ≤ e.profanity_frequency) then
    (17, "MatureLanguage".toList, "Frequent mature language detected".toList)
  else if e.gaming_mature_rating && decide (3 ≤ e.mature_game_count) then
    (17, "MatureGaming".toList, "Multiple mature-rated games detected".toList)
  else
    (13, "Default".toList, "Fallback to YouTube minimum age per policy".toList)

/-- One row of the precedence table: a condition on the evidence bag and
the decision it emits. -/
structure AdjudicationRule where
  cond : EvidenceBag → Bool
  emit : EvidenceBag → Nat × Str × Str

/-- The strictly ordered precedence table of `adjudicate_evidence`,
one row per `if` in source order (rule 16 is the unconditional default). -/
def adjudicationRules : List AdjudicationRule :=
  [⟨fun e => e.made_for_kids, fun _ =>
      (3, "YouTube_madeForKids".toList, "Channel flagged Made for Kids in YouTube Data API".toList)⟩,
   ⟨fun e => pyTruthy e.common_sense_age, fun e =>
      (e.common_sense_age.getD 0, "CommonSenseMedia".toList, "CSM recommended age".toList)⟩,
   ⟨fun e => e.kidsafe, fun _ =>
      (4, "kidSAFE".toList, "Listed as kidSAFE certified".toList)⟩,
   ⟨fun e => e.yt_agerestricted, fun _ =>
      (18, "YouTube_AgeRestricted".toList, "Majority content age-restricted".toList)⟩,
   ⟨fun e => pyTruthy e.video_board_max_age, fun e =>
      (e.video_board_max_age.getD 0, "RegionalBoardMax".toList, "Max rating across recent uploads".toList)⟩,
   ⟨fun e => e.is_educational_content, fun _ =>
      (13, "EducationalContent".toList, "Educational/instructional content detected".toList)⟩,
   ⟨fun e => e.is_explicit_adult_content, fun _ =>
      (18, "ExplicitContent".toList, "Explicit adult content detected".toList)⟩,
   ⟨fun e => e.is_drama_controversy_heavy, fun _ =>
      (18, "DramaContent".toList, "Heavy drama/controversy content detected".toList)⟩,
   ⟨fun e => e.is_adult_personality_heavy, fun _ =>
      (18, "AdultPersonality".toList, "Adult lifestyle/personality content detected".toList)⟩,
   ⟨fun e => e.is_mature_themes_heavy, fun _ =>
      (17, "MatureThemes".toList, "Mature themes (violence, mental health) detected".toList)⟩,
   ⟨fun e => e.is_mature_gaming_focused, fun _ =>
      (17, "MatureGaming".toList, "Mature gaming content focus detected".toList)⟩,
   ⟨fun e => decide ((3 : Rat) ≤ e.total_adult_content_score), fun e =>
      (18, "AdultContentScore".toList,
        "High adult content score: ".toList ++ fmt1 e.total_adult_content_score)⟩,
   ⟨fun e => e.adult_keywords_detected && decide (2 ≤ e.adult_keyword_frequency), fun _ =>
      (18, "AdultKeywords".toList, "Multiple adult-oriented keywords detected".toList)⟩,
   ⟨fun e => e.mature_language_detected && decide (3 ≤ e.profanity_frequency), fun _ =>
      (17, "MatureLanguage".toList, "Frequent mature language detected".toList)⟩,
   ⟨fun e => e.gaming_mature_rating && decide (3 ≤ e.mature_game_count), fun _ =>
      (17, "MatureGaming".toList, "Multiple mature-rated games detected".toList)⟩,
   ⟨fun _ => true, fun _ =>
      (13, "Default".toList, "Fallback to YouTube minimum age per policy".toList)⟩]

/-- First-match-wins evaluation of a precedence table. -/
def firstMatch : List AdjudicationRule → EvidenceBag → Nat × Str × Str
  | [], _ => (13, "Default".toList, "Fallback to YouTube minimum age per policy".toList)
  | r :: rs, e => if r.cond e then r.emit e else firstMatch rs e

theorem adjudicate_eq_firstMatch (e : EvidenceBag) :
    adjudicate_evidence e = firstMatch adjudicationRules e := rfl

-- ---------------------------------------------------------------------------
-- JSON values and `json.dumps(..., sort_keys=True)` (enrichment_pipeline.py:59-64)
-- ---------------------------------------------------------------------------

/-- JSON values as stored in cache files and passed as request parameters.
Numbers are modelled as integers: every number the pipeline serializes or
compares is an integer count, id or an integer-second timestamp. -/
inductive JVal where
  | jnull : JVal
  | jbool : Bool → JVal
  | jnum : Int → JVal
  | jstr : Str → JVal
  | jarr : List JVal → JVal
  | jobj : List (Str × JVal) → JVal

/-- Code-point comparison of texts, as Python compares strings. -/
def strLe : Str → Str → Bool
  | [], _ => true
  | _ :: _, [] => false
  | a :: s, b :: t => if a = b then strLe s t else decide (a.toNat < b.toNat)

/-- Fixed-width lowercase hexadecimal rendering (`d` digits). -/
def hexDigit (n : Nat) : Char :=
  if n < 10 then Char.ofNat (48 + n) else Char.ofNat (87 + n)

def toHexFixed (n : Nat) : Nat → Str
  | 0 => []
  | d + 1 => toHexFixed (n / 16) d ++ [hexDigit (n % 16)]

/-- JSON string escaping as `json.dumps` performs it with the default
`ensure_ascii=True`: short escapes for the common control characters,
`\uXXXX` (with surrogate pairs above the BMP) for other control or
non-ASCII characters. -/
def escapeChar (c : Char) : Str :=
  if c = Char.ofNat 34 then List.map Char.ofNat [92, 34]
  else if c = Char.ofNat 92 then List.map Char.ofNat [92, 92]
  else if c = Char.ofNat 10 then ("\\n".toList)
  else if c = Char.ofNat 9 then ("\\t".toList)
  else if c = Char.ofNat 13 then ("\\r".toList)
  else if c = Char.ofNat 8 then ("\\b".toList)
  else if c = Char.ofNat 12 then ("\\f".toList)
  else if c.toNat < 32 || 126 < c.toNat then
    if c.toNat < 65536 then ("\\u".toList) ++ toHexFixed c.toNat 4
    else ("\\u".toList) ++ toHexFixed (55296 + ((c.toNat - 65536) >>> 10)) 4
      ++ ("\\u".toList) ++ toHexFixed (56320 + ((c.toNat - 65536) % 1024)) 4
  else [c]

def quoteJson (s : Str) : Str :=
  [Char.ofNat 34] ++ List.flatten (List.map escapeChar s) ++ [Char.ofNat 34]

/-- Decimal rendering of a JSON integer, as Python prints it. -/
def intDec (n : Int) : Str :=
  if n < 0 then ("-".toList) ++ Nat.toDigits 10 n.natAbs else Nat.toDigits 10 n.natAbs

/-- Join rendered items with the default `json.dumps` item separator. -/
def joinCommaSp : List Str → Str
  | [] => []
  | [x] => x
  | x :: y :: rest => x ++ (", ".toList) ++ joinCommaSp (y :: rest)

/-- Key order used by `sort_keys=True`: compare the keys. -/
def keyLe (p q : Str × Str) : Prop := strLe p.1 q.1 = true

instance : DecidableRel keyLe :=
  fun p q => inferInstanceAs (Decidable (strLe p.1 q.1 = true))

/-- Sort the (key, rendered value) pairs of an object by key, as
`sort_keys=True` does. -/
def sortPairs (l : List (Str × Str)) : List (Str × Str) :=
  List.insertionSort keyLe l

def renderPair (p : Str × Str) : Str := quoteJson p.1 ++ (": ".toList) ++ p.2

mutual

/-- Model of `json.dumps(v, sort_keys=True)` with default separators. -/
def dumps : JVal → Str
  | .jnull => ("null".toList)
  | .jbool true => ("true".toList)
  | .jbool false => ("false".toList)
  | .jnum n => intDec n
  | .jstr s => quoteJson s
  | .jarr xs => ("[".toList) ++ joinCommaSp (dumpsArr xs) ++ ("]".toList)
  | .jobj kvs =>
      ("\x7b".toList) ++ joinCommaSp (List.map renderPair (sortPairs (dumpsObj kvs)))
        ++ ("\x7d".toList)

def dumpsArr : List JVal → List Str
  | [] => []
  | v :: rest => dumps v :: dumpsArr rest

def dumpsObj : List (Str × JVal) → List (Str × Str)
  | [] => []
  | kv :: rest => (kv.1, dumps kv.2) :: dumpsObj rest

end

-- ---------------------------------------------------------------------------
-- MD5 (model of `hashlib.md5(...).hexdigest()`, RFC 1321) and UTF-8 encoding
-- ---------------------------------------------------------------------------

/-- UTF-8 encoding of one character (model of `str.encode()`). -/
def utf8Char (c : Char) : List Nat :=
  let n := c.toNat
  if n < 128 then [n]
  else if n < 2048 then [192 ||| (n >>> 6), 128 ||| (n &&& 63)]
  else if n < 65536 then
    [224 ||| (n >>> 12), 128 ||| ((n >>> 6) &&& 63), 128 ||| (n &&& 63)]
  else
    [240 ||| (n >>> 18), 128 ||| ((n >>> 12) &&& 63),
     128 ||| ((n >>> 6) &&& 63), 128 ||| (n &&& 63)]

def strBytes (s : Str) : List Nat := List.flatten (List.map utf8Char s)

def rotl32 (x s : Nat) : Nat := ((x <<< s) ||| (x >>> (32 - s))) % 4294967296

/-- The 64 MD5 sine-table constants. -/
def md5K : List Nat :=
  [0xd76aa478, 0xe8c7b756, 0x242070db, 0xc1bdceee,
   0xf57c0faf, 0x4787c62a, 0xa8304613, 0xfd469501,
   0x698098d8, 0x8b44f7af, 0xffff5bb1, 0x895cd7be,
   0x6b901122, 0xfd987193, 0xa679438e, 0x49b40821,
   0xf61e2562, 0xc040b340, 0x265e5a51, 0xe9b6c7aa,
   0xd62f105d, 0x02441453, 0xd8a1e681, 0xe7d3fbc8,
   0x21e1cde6, 0xc33707d6, 0xf4d50d87, 0x455a14ed,
   0xa9e3e905, 0xfcefa3f8, 0x676f02d9, 0x8d2a4c8a,
   0xfffa3942, 0x8771f681, 0x6d9d6122, 0xfde5380c,
   0xa4beea44, 0x4bdecfa9, 0xf6bb4b60, 0xbebfbc70,
   0x289b7ec6, 0xeaa127fa, 0xd4ef3085, 0x04881d05,
   0xd9d4d039, 0xe6db99e5, 0x1fa27cf8, 0xc4ac5665,
   0xf4292244, 0x432aff97, 0xab9423a7, 0xfc93a039,
   0x655b59c3, 0x8f0ccc92, 0xffeff47d, 0x85845dd1,
   0x6fa87e4f, 0xfe2ce6e0, 0xa3014314, 0x4e0811a1,
   0xf7537e82, 0xbd3af235, 0x2ad7d2bb, 0xeb86d391]

/-- The 64 per-round left-rotation amounts. -/
def md5S : List Nat :=
  [7, 12, 17, 22, 7, 12, 17, 22, 7, 12, 17, 22, 7, 12, 17, 22,
   5, 9, 14, 20, 5, 9, 14, 20, 5, 9, 14, 20, 5, 9, 14, 20,
   4, 11, 16, 23, 4, 11, 16, 23, 4, 11, 16, 23, 4, 11, 16, 23,
   6, 10, 15, 21, 6, 10, 15, 21, 6, 10, 15, 21, 6, 10, 15, 21]

/-- Round function of round `i` applied to registers `b`, `c`, `d`
(32-bit complement written as xor with the all-ones word). -/
def md5F (i b c d : Nat) : Nat :=
  if i < 16 then (b &&& c) ||| ((b ^^^ 4294967295) &&& d)
  else if i < 32 then (d &&& b) ||| ((d ^^^ 4294967295) &&& c)
  else if i < 48 then b ^^^ c ^^^ d
  else c ^^^ (b ||| (d ^^^ 4294967295))

/-- Message-word index used in round `i`. -/
def md5G (i : Nat) : Nat :=
  if i < 16 then i
  else if i < 32 then (5 * i + 1) % 16
  else if i < 48 then (3 * i + 5) % 16
  else (7 * i) % 16

def md5Step (M : Nat → Nat) (st : Nat × Nat × Nat × Nat) (i : Nat) : Nat × Nat × Nat × Nat :=
  let f := md5F i st.2.1 st.2.2.1 st.2.2.2
  let t := (st.1 + f + List.getD md5K i 0 + M (md5G i)) % 4294967296
  (st.2.2.2, (st.2.1 + rotl32 t (List.getD md5S i 0)) % 4294967296, st.2.1, st.2.2.1)

/-- Little-endian 32-bit word `j` of a 64-byte chunk. -/
def chunkWord (chunk : List Nat) (j : Nat) : Nat :=
  List.getD chunk (4 * j) 0 + 256 * List.getD chunk (4 * j + 1) 0
    + 65536 * List.getD chunk (4 * j + 2) 0 + 16777216 * List.getD chunk (4 * j + 3) 0

def md5Compress (st : Nat × Nat × Nat × Nat) (chunk : List Nat) : Nat × Nat × Nat × Nat :=
  let r := List.foldl (md5Step (chunkWord chunk)) st (List.range 64)
  ((st.1 + r.1) % 4294967296, (st.2.1 + r.2.1) % 4294967296,
   (st.2.2.1 + r.2.2.1) % 4294967296, (st.2.2.2 + r.2.2.2) % 4294967296)

def chunks64 : List Nat → List (List Nat)
  | [] => []
  | b :: rest => List.take 64 (b :: rest) :: chunks64 (List.drop 64 (b :: rest))
termination_by l => l.length
decreasing_by simp [List.length_drop]; omega

/-- Little-endian byte rendering of a 32-bit word / a 64-bit length. -/
def le4 (x : Nat) : List Nat :=
  [x &&& 255, (x >>> 8) &&& 255, (x >>> 16) &&& 255, (x >>> 24) &&& 255]

def le8 (x : Nat) : List Nat :=
  [x &&& 255, (x >>> 8) &&& 255, (x >>> 16) &&& 255, (x >>> 24) &&& 255,
   (x >>> 32) &&& 255, (x >>> 40) &&& 255, (x >>> 48) &&& 255, (x >>> 56) &&& 255]

/-- MD5 padding: a 1-bit, zeros to 56 mod 64, then the bit length. -/
def md5Pad (msg : List Nat) : List Nat :=
  msg ++ [128] ++ List.replicate ((119 - msg.length % 64) % 64) 0 ++ le8 (8 * msg.length)

def md5Bytes (msg : List Nat) : List Nat :=
  let st := List.foldl md5Compress
    (0x67452301, 0xefcdab89, 0x98badcfe, 0x10325476) (chunks64 (md5Pad msg))
  le4 st.1 ++ le4 st.2.1 ++ le4 st.2.2.1 ++ le4 st.2.2.2

def bytesToHex : List Nat → Str
  | [] => []
  | b :: rest => hexDigit ((b >>> 4) &&& 15) :: hexDigit (b &&& 15) :: bytesToHex rest

/-- `hashlib.md5(text.encode()).hexdigest()`. -/
def md5Hex (s : Str) : Str := bytesToHex (md5Bytes (strBytes s))

/-- Model of `get_cache_key(endpoint, params)`
(enrichment_pipeline.py:59-64): the parameter dict is serialized with
sorted keys, glued to the endpoint name with a colon, and hashed. -/
def get_cache_key (endpoint : Str) (params : List (Str × JVal)) : Str :=
  md5Hex (endpoint ++ (":".toList) ++ dumps (JVal.jobj params))

-- ---------------------------------------------------------------------------
-- Response cache files (enrichment_pipeline.py:70-106)
-- ---------------------------------------------------------------------------

/-- Content of one cache file as seen by `json.load`: either text that is
not valid JSON (raising `json.JSONDecodeError`), or a parsed JSON value. -/
inductive CacheFile where
  | corrupt : CacheFile
  | content : JVal → CacheFile

/-- The cache directory: at most one file per cache key. -/
abbrev CacheStore := List (Str × CacheFile)

def storeGet : CacheStore → Str → Option CacheFile
  | [], _ => none
  | kf :: rest, k => if kf.1 = k then some kf.2 else storeGet rest k

def storeErase : CacheStore → Str → CacheStore
  | [], _ => []
  | kf :: rest, k => if kf.1 = k then storeErase rest k else kf :: storeErase rest k

def storePut (st : CacheStore) (k : Str) (f : CacheFile) : CacheStore :=
  (k, f) :: storeErase st k

/-- Uncaught Python exceptions that `get_cached_response` can raise; the
`except` clause catches only `json.JSONDecodeError`, `KeyError` and
`FileNotFoundError`. -/
inductive PyExc where
  | attributeError : PyExc
  | typeError : PyExc

/-- Lookup in a parsed JSON object, `dict.get` on the first binding. -/
def objGet : List (Str × JVal) → Str → Option JVal
  | [], _ => none
  | kv :: rest, k => if kv.1 = k then some kv.2 else objGet rest k

/-- Python numeric coercion for `time.time() - cache_time`: numbers
subtract, booleans coerce to 0/1, anything else raises `TypeError`. -/
def numCoerce : JVal → Option Int
  | .jnum n => some n
  | .jbool b => some (if b then 1 else 0)
  | _ => none

/-- Model of `get_cached_response(cache_key)` (enrichment_pipeline.py:70-92)
at clock time `now`.  Returns the outcome (`Except` for a propagated
exception, `Option` for hit/miss) together with the cache directory after
the call.  The `cached_at` value defaults to 0 via `.get('cached_at', 0)`;
an entry younger than 86400 seconds yields its `response` value, an older
one is unlinked; a file whose JSON is not an object raises
`AttributeError` on `.get`, and a non-numeric `cached_at` raises
`TypeError` in the subtraction — neither is caught. -/
def get_cached_response (store : CacheStore) (cache_key : Str) (now : Int) :
    Except PyExc (Option JVal) × CacheStore :=
  match storeGet store cache_key with
  | none => (.ok none, store)
  | some .corrupt => (.ok none, store)
  | some (.content v) =>
    match v with
    | .jobj kvs =>
      match numCoerce ((objGet kvs ("cached_at".toList)).getD (.jnum 0)) with
      | some cache_time =>
          if now - cache_time < 86400 then (.ok (objGet kvs ("response".toList)), store)
          else (.ok none, storeErase store cache_key)
      | none => (.error .typeError, store)
    | _ => (.error .attributeError, store)

/-- Model of `cache_response(cache_key, response)`
(enrichment_pipeline.py:94-106) at clock time `now`: writes a JSON object
with the write time and the payload, overwriting any previous file. -/
def cache_response (store : CacheStore) (cache_key : Str) (now : Int) (response : JVal) :
    CacheStore :=
  storePut store cache_key
    (.content (.jobj [(("cached_at".toList), .jnum now), (("response".toList), response)]))

-- ---------------------------------------------------------------------------
-- Rate/Quota Governor: `throttle_api_call` (enrichment_pipeline.py:133-174)
-- ---------------------------------------------------------------------------

def MAX_CALLS_PER_DAY : Nat := 9000

def MAX_CALLS_PER_MINUTE : Nat := 2500

/-- The module-level throttling state. -/
structure QuotaState where
  api_calls_made : Nat
  daily_calls_made : Nat
  last_call_time : Int
  daily_reset_time : Int
  quota_exceeded : Bool

/-- The state at module initialization (enrichment_pipeline.py:47-53). -/
def initQuotaState : QuotaState :=
  { api_calls_made := 0, daily_calls_made := 0, last_call_time := 0,
    daily_reset_time := 0, quota_exceeded := false }

/-- Model of `throttle_api_call()` at clock time `now`, in integer
seconds.  Returns (allowed?, new state, seconds slept in the per-minute
wait).  `time.time()` after that sleep is modelled as `now + wait`.  The
unconditional 0.1-second burst delay before the counter increments does
not touch the state and is not part of the returned wait; it is only
reached on paths that let the call proceed. -/
def bumpCounters (s : QuotaState) : QuotaState :=
  { s with api_calls_made := s.api_calls_made + 1, daily_calls_made := s.daily_calls_made + 1 }

def throttle_api_call (s : QuotaState) (now : Int) : Bool × QuotaState × Int :=
  if s.quota_exceeded then (false, s, 0)
  else
    let s1 := if now - s.daily_reset_time > 86400 then
        { s with daily_calls_made := 0, daily_reset_time := now } else s
    if s1.daily_calls_made ≥ MAX_CALLS_PER_DAY then
      (false, { s1 with quota_exceeded := true }, 0)
    else
      let s2 := if now - s1.last_call_time > 60 then
          { s1 with api_calls_made := 0, last_call_time := now } else s1
      if s2.api_calls_made ≥ MAX_CALLS_PER_MINUTE then
        let wait := 60 - (now - s2.last_call_time)
        if wait > 0 then
          (true, bumpCounters { s2 with api_calls_made := 0, last_call_time := now + wait }, wait)
        else
          (true, bumpCounters s2, 0)
      else
        (true, bumpCounters s2, 0)

/-- Run a sequence of throttled admissions from the initial module state;
each element of `nows` is the clock time of one `throttle_api_call()`. -/
def throttleRun (nows : List Int) : QuotaState :=
  List.foldl (fun s now => (throttle_api_call s now).2.1) initQuotaState nows

/-- A throttling state reachable from module initialization by some
sequence of `throttle_api_call` invocations. -/
def ReachableQuota (s : QuotaState) : Prop := ∃ nows, throttleRun nows = s

-- ---------------------------------------------------------------------------
-- Gatherer retry behaviour: `resolve_channel_id` + `handle_api_error`
-- (enrichment_pipeline.py:176-230)
-- ---------------------------------------------------------------------------

/-- Outcome of one executed HTTP request, as classified by
`handle_api_error`: success, 403 quota exhaustion, 429 rate limiting, or
any other error. -/
inductive ApiOutcome where
  | success : JVal → ApiOutcome
  | quotaExceeded403 : ApiOutcome
  | rateLimited429 : ApiOutcome
  | otherError : ApiOutcome

/-- Model of the request/except/retry loop of `resolve_channel_id`
(enrichment_pipeline.py:202-230): the function consumes one oracle
outcome per executed request; on a 429 `handle_api_error` returns
"retry" and the function calls itself recursively (nothing was cached,
so the recursive call misses the cache again and executes another
request).  Returns the raw API response (`none` on failure) and the
number of requests executed.  `cached` is the initial cache lookup and
`granted` the governor's verdict, both held fixed across the retries. -/
def resolve_channel_id (cached : Option JVal) (granted : Bool) (oracle : List ApiOutcome) :
    Option JVal × Nat :=
  match cached with
  | some r => (some r, 0)
  | none =>
    if granted then resolveLoop oracle else (none, 0)
where
  resolveLoop : List ApiOutcome → Option JVal × Nat
    | [] => (none, 0)
    | o :: rest =>
      match o with
      | .success res => (some res, 1)
      | .rateLimited429 => ((resolveLoop rest).1, (resolveLoop rest).2 + 1)
      | _ => (none, 1)

-- ---------------------------------------------------------------------------
-- General lemmas
-- ---------------------------------------------------------------------------

theorem hasPref_append {n h : Str} (e : Str) (hp : hasPref n h = true) :
    hasPref n (h ++ e) = true := by
  induction n generalizing h with
  | nil => simp [hasPref]
  | cons a t ih =>
    cases h with
    | nil => simp [hasPref] at hp
    | cons b m =>
      simp only [hasPref, Bool.and_eq_true, beq_iff_eq] at hp
      simp only [List.cons_append, hasPref, Bool.and_eq_true, beq_iff_eq]
      exact ⟨hp.1, ih hp.2⟩

theorem hasPref_nil (n : Str) (hp : hasPref n [] = true) : n = [] := by
  cases n with
  | nil => rfl
  | cons a t => simp [hasPref] at hp

theorem strIn_nil_needle (hay : Str) : strIn [] hay = true := by
  induction hay with
  | nil => rfl
  | cons c t ih => simp [strIn, hasPref]

theorem strIn_append {n h : Str} (e : Str) (hp : strIn n h = true) :
    strIn n (h ++ e) = true := by
  induction h with
  | nil =>
    have hn : n = [] := hasPref_nil n hp
    subst hn
    exact strIn_nil_needle e
  | cons c t ih =>
    simp only [strIn, Bool.or_eq_true] at hp
    rcases hp with hp | hp
    · simp only [List.cons_append, strIn, Bool.or_eq_true]
      exact Or.inl (hasPref_append e hp)
    · simp only [List.cons_append, strIn, Bool.or_eq_true]
      exact Or.inr (ih hp)

theorem countPresentW_foldl_mono {t u : Str} (w : Nat) (kws : List Str)
    (hmono : ∀ kw, strIn kw t = true → strIn kw u = true) :
    ∀ a b : Nat, a ≤ b →
      List.foldl (fun acc kw => if strIn kw t then acc + w else acc) a kws ≤
      List.foldl (fun acc kw => if strIn kw u then acc + w else acc) b kws := by
  induction kws with
  | nil => intro a b hab; simpa using hab
  | cons kw rest ih =>
    intro a b hab
    simp only [List.foldl_cons]
    apply ih
    by_cases hk : strIn kw t = true
    · rw [if_pos hk, if_pos (hmono kw hk)]; omega
    · rw [if_neg hk]
      by_cases hku : strIn kw u = true
      · rw [if_pos hku]; omega
      · rw [if_neg hku]; exact hab

theorem countPresentW_mono {t u : Str} (w : Nat) (kws : List Str)
    (hmono : ∀ kw, strIn kw t = true → strIn kw u = true) :
    countPresentW w kws t ≤ countPresentW w kws u :=
  countPresentW_foldl_mono w kws hmono 0 0 (Nat.le_refl 0)

theorem strLower_append (a b : Str) : strLower (a ++ b) = strLower a ++ strLower b :=
  List.map_append Char.toLower a b

/-- Closed form of the seven counters of `analyze_content_maturity`:
each equals its channel-description contribution plus the per-video sum. -/
theorem counts_foldl_closed (videos : List Video) (c0 : MaturityCounts) :
    (List.foldl countsStep c0 videos).educational_count
        = c0.educational_count + (List.map (fun v => countPresentW 1 educational_keywords (videoText v)) videos).sum
    ∧ (List.foldl countsStep c0 videos).explicit_count
        = c0.explicit_count + (List.map (fun v => countPresentW 1 explicit_adult_keywords (videoText v)) videos).sum
    ∧ (List.foldl countsStep c0 videos).drama_count
        = c0.drama_count + (List.map (fun v => countPresentW 1 drama_keywords (videoText v)) videos).sum
    ∧ (List.foldl countsStep c0 videos).mature_gaming_count
        = c0.mature_gaming_count + (List.map (fun v => countPresentW 1 mature_gaming_keywords (videoText v)) videos).sum
    ∧ (List.foldl countsStep c0 videos).profanity_count
        = c0.profanity_count + (List.map (fun v => countPresentW 1 profanity_keywords (videoText v)) videos).sum
    ∧ (List.foldl countsStep c0 videos).adult_personality_count
        = c0.adult_personality_count + (List.map (fun v => countPresentW 1 adult_personality_keywords (videoText v)) videos).sum
    ∧ (List.foldl countsStep c0 videos).mature_themes_count
        = c0.mature_themes_count + (List.map (fun v => countPresentW 1 mature_themes_keywords (videoText v)) videos).sum := by
  induction videos generalizing c0 with
  | nil => simp
  | cons v rest ih =>
    simp only [List.foldl_cons, List.map_cons, List.sum_cons]
    obtain ⟨h1, h2, h3, h4, h5, h6, h7⟩ := ih (countsStep c0 v)
    refine ⟨?_, ?_, ?_, ?_, ?_, ?_, ?_⟩
    · rw [h1]; simp only [countsStep]; omega
    · rw [h2]; simp only [countsStep]; omega
    · rw [h3]; simp only [countsStep]; omega
    · rw [h4]; simp only [countsStep]; omega
    · rw [h5]; simp only [countsStep]; omega
    · rw [h6]; simp only [countsStep]; omega
    · rw [h7]; simp only [countsStep]; omega

/-- One admission at clock time 1 from a breaker-off state with
`daily_reset_time = 0` and a daily count below the limit bumps the daily
count and leaves the breaker off and the daily window unchanged. -/
theorem throttle_step_invariant (s : QuotaState) (k : Nat)
    (hq : s.quota_exceeded = false) (hr : s.daily_reset_time = 0)
    (hd : s.daily_calls_made = k) (hk : k < MAX_CALLS_PER_DAY) :
    (throttle_api_call s 1).2.1.quota_exceeded = false ∧
    (throttle_api_call s 1).2.1.daily_reset_time = 0 ∧
    (throttle_api_call s 1).2.1.daily_calls_made = k + 1 := by
  have hnoreset : ¬((1 : Int) - s.daily_reset_time > 86400) := by rw [hr]; omega
  have hnolim : ¬(s.daily_calls_made ≥ MAX_CALLS_PER_DAY) := by omega
  simp only [throttle_api_call, hq, Bool.false_eq_true, if_false, if_neg hnoreset,
    if_neg hnolim]
  split
  · split
    · split <;> simp [bumpCounters, hq, hr, hd]
    · simp [bumpCounters, hq, hr, hd]
  · split
    · split <;> simp [bumpCounters, hq, hr, hd]
    · simp [bumpCounters, hq, hr, hd]

theorem throttleRun_replicate_invariant :
    ∀ (n : Nat) (s : QuotaState) (k : Nat), s.quota_exceeded = false →
      s.daily_reset_time = 0 → s.daily_calls_made = k → k + n ≤ MAX_CALLS_PER_DAY →
      (List.foldl (fun s now => (throttle_api_call s now).2.1) s (List.replicate n 1)).quota_exceeded = false ∧
      (List.foldl (fun s now => (throttle_api_call s now).2.1) s (List.replicate n 1)).daily_reset_time = 0 ∧
      (List.foldl (fun s now => (throttle_api_call s now).2.1) s (List.replicate n 1)).daily_calls_made = k + n := by
  intro n
  induction n with
  | zero => intro s k hq hr hd _; simpa using ⟨hq, hr, hd⟩
  | succ m ih =>
    intro s k hq hr hd hkn
    have hk : k < MAX_CALLS_PER_DAY := by omega
    obtain ⟨hq1, hr1, hd1⟩ := throttle_step_invariant s k hq hr hd hk
    have : (k + 1) + m ≤ MAX_CALLS_PER_DAY := by omega
    have step := ih ((throttle_api_call s 1).2.1) (k + 1) hq1 hr1 hd1 this
    simpa [List.replicate_succ, Nat.add_assoc, Nat.add_comm 1 m] using step

-- ---------------------------------------------------------------------------
-- First-match machinery for the precedence table
-- ---------------------------------------------------------------------------

theorem firstMatch_of_firstTrue :
    ∀ (rs : List AdjudicationRule) (e : EvidenceBag) (i : Nat) (h : i < rs.length),
      (∀ j (hj : j < i), (rs.get ⟨j, Nat.lt_trans hj h⟩).cond e = false) →
      (rs.get ⟨i, h⟩).cond e = true →
      firstMatch rs e = (rs.get ⟨i, h⟩).emit e := by
  intro rs
  induction rs with
  | nil => intro e i h; simp at h
  | cons r rest ih =>
    intro e i h hprior hcond
    cases i with
    | zero =>
      simp only [List.get] at hcond ⊢
      simp only [firstMatch, hcond, if_true]
    | succ j =>
      have h0 : r.cond e = false := hprior 0 (Nat.succ_pos j)
      have hj : j < rest.length := Nat.lt_of_succ_lt_succ h
      have hprior' : ∀ m (hm : m < j), (rest.get ⟨m, Nat.lt_trans hm hj⟩).cond e = false := by
        intro m hm
        exact hprior (m + 1) (Nat.succ_lt_succ hm)
      simp only [List.get] at hcond ⊢
      rw [firstMatch, if_neg (by simp [h0])]
      exact ih e j hj hprior' hcond

theorem firstMatch_exists :
    ∀ (rs : List AdjudicationRule) (e : EvidenceBag),
      (∃ r ∈ rs, r.cond e = true) →
      ∃ i, ∃ h : i < rs.length, (rs.get ⟨i, h⟩).cond e = true ∧
        firstMatch rs e = (rs.get ⟨i, h⟩).emit e := by
  intro rs
  induction rs with
  | nil => intro e htot; simp at htot
  | cons r rest ih =>
    intro e htot
    by_cases hr : r.cond e = true
    · exact ⟨0, Nat.succ_pos _, hr, by simp [firstMatch, hr]⟩
    · have : ∃ r ∈ rest, r.cond e = true := by
        obtain ⟨r0, hmem, hc⟩ := htot
        rcases List.mem_cons.mp hmem with h | h
        · exact absurd (h ▸ hc) hr
        · exact ⟨r0, h, hc⟩
      obtain ⟨i, hi, hc, hfm⟩ := ih e this
      refine ⟨i + 1, Nat.succ_lt_succ hi, ?_, ?_⟩
      · simpa [List.get] using hc
      · rw [firstMatch, if_neg (by simp [hr])]
        simpa [List.get] using hfm

-- ---------------------------------------------------------------------------
-- Claim theorems
-- ---------------------------------------------------------------------------

/-- C1: for every evidence bag, if rule `i` of the documented precedence
table is the highest-precedence rule whose condition holds (all rules
before it are false, rule `i` is true), then `adjudicate_evidence`
returns exactly rule `i`'s output — first-match-wins in source order, and
no lower-precedence rule contributes to the result. -/
theorem adjudication_first_match (e : EvidenceBag) (i : Nat)
    (h : i < adjudicationRules.length)
    (hprior : ∀ j (hj : j < i), ((adjudicationRules.get ⟨j, Nat.lt_trans hj h⟩).cond e = false))
    (hcond : (adjudicationRules.get ⟨i, h⟩).cond e = true) :
    adjudicate_evidence e = (adjudicationRules.get ⟨i, h⟩).emit e := by
  rw [adjudicate_eq_firstMatch]
  exact firstMatch_of_firstTrue adjudicationRules e i h hprior hcond

theorem adjudication_first_match_witness :
    ((adjudicationRules.get ⟨2, by decide⟩).cond { kidsafe := true } = true) ∧
    adjudicate_evidence { kidsafe := true }
        = (adjudicationRules.get ⟨2, by decide⟩).emit { kidsafe := true } :=
  ⟨by decide,
   adjudication_first_match { kidsafe := true } 2 (by decide) (by decide) (by decide)⟩

/-- C2: `adjudicate_evidence` is total and deterministic: every evidence
bag (the empty bag included, via the unconditional default rule) is
decided by some rule of the table, and equal bags yield equal
`(age, source_label, note)` triples. -/
theorem adjudication_total_deterministic :
    (∀ e : EvidenceBag, ∃ i, ∃ h : i < adjudicationRules.length,
        (adjudicationRules.get ⟨i, h⟩).cond e = true ∧
        adjudicate_evidence e = (adjudicationRules.get ⟨i, h⟩).emit e) ∧
    (∀ e1 e2 : EvidenceBag, e1 = e2 → adjudicate_evidence e1 = adjudicate_evidence e2) := by
  constructor
  · intro e
    have htot : ∃ r ∈ adjudicationRules, r.cond e = true :=
      ⟨adjudicationRules.get ⟨15, by decide⟩, List.get_mem adjudicationRules 15 (by decide), rfl⟩
    obtain ⟨i, h, hc, hfm⟩ := firstMatch_exists adjudicationRules e htot
    exact ⟨i, h, hc, (adjudicate_eq_firstMatch e).trans hfm⟩
  · intro e1 e2 h
    rw [h]

theorem adjudication_total_deterministic_witness :
    adjudicate_evidence { } = adjudicate_evidence { } :=
  adjudication_total_deterministic.2 { } { } rfl

/-- C10: `adjudicate_evidence` treats a present-but-zero
`common_sense_age` or `video_board_max_age` exactly like an absent one:
Python truthiness makes the walrus conditions reject 0, so the expert
and regional-board rules do not fire and adjudication falls through. -/
theorem zero_age_signals_ignored (e : EvidenceBag) :
    adjudicate_evidence { e with common_sense_age := some 0 }
        = adjudicate_evidence { e with common_sense_age := none } ∧
    adjudicate_evidence { e with video_board_max_age := some 0 }
        = adjudicate_evidence { e with video_board_max_age := none } :=
  ⟨rfl, rfl⟩

/-- C5 counterexample: after exactly `MAX_CALLS_PER_DAY` admissions from
the initial module state (all at clock time 1), the daily counter has
reached the daily limit but the breaker flag is still false — so "once
the daily counter has reached the daily limit the breaker flag is set"
fails on reachable states; the breaker only trips on the next call. -/
theorem daily_limit_reached_without_breaker :
    ∃ s : QuotaState, ReachableQuota s ∧
      MAX_CALLS_PER_DAY ≤ s.daily_calls_made ∧ s.quota_exceeded = false := by
  obtain ⟨hq, _, hd⟩ := throttleRun_replicate_invariant 9000 initQuotaState 0
    rfl rfl rfl (by decide)
  refine ⟨throttleRun (List.replicate 9000 1), ⟨List.replicate 9000 1, rfl⟩, ?_, hq⟩
  rw [throttleRun, hd]
  decide

/-- C5 amended: the breaker is latched but set lazily.  Whenever the
breaker flag is set, `throttle_api_call` returns false immediately,
sleeps 0 seconds and leaves the state untouched; and in any breaker-off
state whose daily count has reached the limit, the next call inside the
same daily window returns false, sleeps 0 seconds and sets the breaker
while changing nothing else. -/
theorem breaker_trip_and_latch :
    (∀ (s : QuotaState) (now : Int), s.quota_exceeded = true →
        throttle_api_call s now = (false, s, 0)) ∧
    (∀ (s : QuotaState) (now : Int), s.quota_exceeded = false →
        now - s.daily_reset_time ≤ 86400 →
        MAX_CALLS_PER_DAY ≤ s.daily_calls_made →
        throttle_api_call s now = (false, { s with quota_exceeded := true }, 0)) := by
  constructor
  · intro s now h
    simp [throttle_api_call, h]
  · intro s now hq hwin hlim
    have hnoreset : ¬(now - s.daily_reset_time > 86400) := by omega
    simp [throttle_api_call, hq, if_neg hnoreset, hlim]

theorem breaker_trip_and_latch_witness :
    throttle_api_call ⟨0, 0, 0, 0, true⟩ 5 = (false, ⟨0, 0, 0, 0, true⟩, 0) ∧
    throttle_api_call ⟨0, 9000, 0, 0, false⟩ 5 = (false, ⟨0, 9000, 0, 0, true⟩, 0) :=
  ⟨breaker_trip_and_latch.1 ⟨0, 0, 0, 0, true⟩ 5 rfl,
   breaker_trip_and_latch.2 ⟨0, 9000, 0, 0, false⟩ 5 rfl (by decide) (by decide)⟩

/-- C6: the claim says a 429 triggers exactly one retry and at most two
requests per sub-call, matching the source comment "Retry once"; but the
retry is a full recursive call, so two consecutive 429 responses lead to
a third request — evaluating the model on the oracle
[429, 429, success] executes 3 requests. -/
theorem resolve_retries_thrice_on_double_429 :
    (resolve_channel_id none true
        [ApiOutcome.rateLimited429, ApiOutcome.rateLimited429,
         ApiOutcome.success JVal.jnull]).2 = 3 := rfl

theorem storeGet_erase : ∀ (st : CacheStore) (k : Str), storeGet (storeErase st k) k = none := by
  intro st k
  induction st with
  | nil => rfl
  | cons kf rest ih =>
    by_cases h : kf.1 = k
    · simpa [storeErase, h] using ih
    · simpa [storeErase, h, storeGet] using ih

/-- C3: a `cache_response` write followed by `get_cached_response` on the
same key returns the identical stored payload while the entry's age is
strictly below 86400 seconds; at age 86400 or more the read reports
absent and the entry is physically deleted from the store. -/
theorem cache_roundtrip_freshness (store : CacheStore) (key : Str) (resp : JVal)
    (tw now : Int) :
    (now - tw < 86400 →
      get_cached_response (cache_response store key tw resp) key now
          = (.ok (some resp), cache_response store key tw resp)) ∧
    (86400 ≤ now - tw →
      (get_cached_response (cache_response store key tw resp) key now).1 = .ok none ∧
      storeGet (get_cached_response (cache_response store key tw resp) key now).2 key
          = none) := by
  have hget : storeGet (cache_response store key tw resp) key
      = some (.content (.jobj [(("cached_at".toList), .jnum tw),
          (("response".toList), resp)])) := by
    simp [cache_response, storePut, storeGet]
  constructor
  · intro hfresh
    simp [get_cached_response, hget, objGet, numCoerce, if_pos hfresh]
  · intro hstale
    have : ¬(now - tw < 86400) := by omega
    constructor
    · simp [get_cached_response, hget, objGet, numCoerce, if_neg this]
    · simp [get_cached_response, hget, objGet, numCoerce, if_neg this, storeGet_erase]

theorem cache_roundtrip_freshness_witness :
    get_cached_response (cache_response [] ("k".toList) 0 (.jnum 7)) ("k".toList) 100
        = (.ok (some (.jnum 7)), cache_response [] ("k".toList) 0 (.jnum 7)) ∧
    (get_cached_response (cache_response [] ("k".toList) 0 (.jnum 7)) ("k".toList) 86400).1
        = .ok none ∧
    storeGet (get_cached_response (cache_response [] ("k".toList) 0 (.jnum 7))
        ("k".toList) 86400).2 ("k".toList) = none :=
  ⟨(cache_roundtrip_freshness [] ("k".toList) (.jnum 7) 0 100).1 (by decide),
   (cache_roundtrip_freshness [] ("k".toList) (.jnum 7) 0 86400).2 (by decide)⟩

/-- C7 counterexample: a cache file whose content is valid JSON but not
an object — here the array [1, 2, 3] — cannot be parsed into a
well-formed entry, yet `get_cached_response` does not return absent: the
`.get` attribute access raises `AttributeError`, which the `except`
clause does not catch, so the exception propagates to the caller. -/
theorem nonobject_cache_entry_raises :
    get_cached_response
        [(("k".toList), CacheFile.content (.jarr [.jnum 1, .jnum 2, .jnum 3]))]
        ("k".toList) 1700000000
      = (.error .attributeError,
         [(("k".toList), CacheFile.content (.jarr [.jnum 1, .jnum 2, .jnum 3]))]) := rfl

/-- C7 amended: for a cache key whose file is missing or whose content
fails JSON parsing, `get_cached_response` returns absent and raises
nothing, leaving the store unchanged; but a file whose content is valid
JSON of a non-object shape escapes the `except` clause and raises
`AttributeError` to the caller (and a non-numeric `cached_at` raises
`TypeError`). -/
theorem corrupt_cache_entry_absent (store : CacheStore) (key : Str) (now : Int)
    (h : storeGet store key = none ∨ storeGet store key = some CacheFile.corrupt) :
    get_cached_response store key now = (.ok none, store) := by
  rcases h with h | h <;> simp [get_cached_response, h]

theorem corrupt_cache_entry_absent_witness :
    get_cached_response [(("a".toList), CacheFile.corrupt)] ("a".toList) 0
        = (.ok none, [(("a".toList), CacheFile.corrupt)]) :=
  corrupt_cache_entry_absent [(("a".toList), CacheFile.corrupt)] ("a".toList) 0 (Or.inr rfl)

/-- C8 counterexample: the claim requires a mature-gaming keyword
("fps") and a profanity keyword ("damn") occurring in the channel
description to add double weight to their categories, but
`analyze_content_maturity` never scans the channel description for those
two categories: both counters stay 0. -/
theorem description_gaming_profanity_uncounted :
    ("fps".toList) ∈ mature_gaming_keywords ∧
    ("damn".toList) ∈ profanity_keywords ∧
    strIn ("fps".toList) (strLower ("fps damn".toList)) = true ∧
    strIn ("damn".toList) (strLower ("fps damn".toList)) = true ∧
    (analyze_content_maturity [] ("fps damn".toList)).mature_game_count = 0 ∧
    (analyze_content_maturity [] ("fps damn".toList)).profanity_frequency = 0 :=
  ⟨by decide, by decide, by decide, by decide, rfl, rfl⟩

/-- C8 amended: keyword hits in the channel description count with
double weight for the educational, drama, adult-lifestyle and
mature-themes categories and with triple weight for explicit-adult
keywords; mature-gaming and profanity keywords are not counted in the
channel description at all; every per-video hit adds standard weight 1,
on the video text whose description is truncated to 500 characters. -/
theorem maturity_count_weights (videos : List Video) (d : Str) :
    (analyze_content_maturity videos d).educational_score
        = countPresentW 2 educational_keywords (strLower d)
          + (List.map (fun v => countPresentW 1 educational_keywords (videoText v)) videos).sum
    ∧ (analyze_content_maturity videos d).adult_keyword_frequency
        = countPresentW 3 explicit_adult_keywords (strLower d)
          + (List.map (fun v => countPresentW 1 explicit_adult_keywords (videoText v)) videos).sum
    ∧ (analyze_content_maturity videos d).drama_score
        = countPresentW 2 drama_keywords (strLower d)
          + (List.map (fun v => countPresentW 1 drama_keywords (videoText v)) videos).sum
    ∧ (analyze_content_maturity videos d).adult_personality_score
        = countPresentW 2 adult_personality_keywords (strLower d)
          + (List.map (fun v => countPresentW 1 adult_personality_keywords (videoText v)) videos).sum
    ∧ (analyze_content_maturity videos d).mature_themes_score
        = countPresentW 2 mature_themes_keywords (strLower d)
          + (List.map (fun v => countPresentW 1 mature_themes_keywords (videoText v)) videos).sum
    ∧ (analyze_content_maturity videos d).mature_game_count
        = (List.map (fun v => countPresentW 1 mature_gaming_keywords (videoText v)) videos).sum
    ∧ (analyze_content_maturity videos d).profanity_frequency
        = (List.map (fun v => countPresentW 1 profanity_keywords (videoText v)) videos).sum := by
  obtain ⟨h1, h2, h3, h4, h5, h6, h7⟩ := counts_foldl_closed videos (countsInit (strLower d))
  exact ⟨h1, h2, h3, h6, h7, by simpa [countsInit] using h4, by simpa [countsInit] using h5⟩

/-- C9 counterexample: appending the single character "x" to a video's
title splits the multi-word keyword "call of duty" that previously
spanned the title/description boundary, dropping the mature-gaming count
from 1 to 0; likewise appending "x" to the title "strip" drops the
adult-lifestyle hit "strip club" and with it the total adult content
score from 1 to 1/2. -/
theorem title_append_decreases_count :
    (analyze_content_maturity [⟨"call of".toList, "duty".toList, []⟩] []).mature_game_count = 1 ∧
    (analyze_content_maturity [⟨("call of".toList ++ "x".toList), "duty".toList, []⟩]
        []).mature_game_count = 0 ∧
    (analyze_content_maturity [⟨"strip".toList, "club".toList, []⟩]
        []).total_adult_content_score = 1 ∧
    (analyze_content_maturity [⟨("strip".toList ++ "x".toList), "club".toList, []⟩]
        []).total_adult_content_score = 1/2 := by
  refine ⟨by decide, by decide, ?_, ?_⟩
  · have h1 : (List.foldl countsStep (countsInit (strLower []))
        [⟨"strip".toList, "club".toList, []⟩]).explicit_count = 0 := by decide
    have h2 : (List.foldl countsStep (countsInit (strLower []))
        [⟨"strip".toList, "club".toList, []⟩]).adult_personality_count = 2 := by decide
    have h3 : (List.foldl countsStep (countsInit (strLower []))
        [⟨"strip".toList, "club".toList, []⟩]).mature_themes_count = 0 := by decide
    show ((List.foldl countsStep (countsInit (strLower []))
          [⟨"strip".toList, "club".toList, []⟩]).explicit_count : Rat)
        + ((List.foldl countsStep (countsInit (strLower []))
          [⟨"strip".toList, "club".toList, []⟩]).adult_personality_count : Rat) * (1/2)
        + ((List.foldl countsStep (countsInit (strLower []))
          [⟨"strip".toList, "club".toList, []⟩]).mature_themes_count : Rat) * (7/10) = 1
    rw [h1, h2, h3]
    norm_num
  · have h1 : (List.foldl countsStep (countsInit (strLower []))
        [⟨("strip".toList ++ "x".toList), "club".toList, []⟩]).explicit_count = 0 := by decide
    have h2 : (List.foldl countsStep (countsInit (strLower []))
        [⟨("strip".toList ++ "x".toList), "club".toList, []⟩]).adult_personality_count = 1 := by decide
    have h3 : (List.foldl countsStep (countsInit (strLower []))
        [⟨("strip".toList ++ "x".toList), "club".toList, []⟩]).mature_themes_count = 0 := by decide
    show ((List.foldl countsStep (countsInit (strLower []))
          [⟨("strip".toList ++ "x".toList), "club".toList, []⟩]).explicit_count : Rat)
        + ((List.foldl countsStep (countsInit (strLower []))
          [⟨("strip".toList ++ "x".toList), "club".toList, []⟩]).adult_personality_count : Rat) * (1/2)
        + ((List.foldl countsStep (countsInit (strLower []))
          [⟨("strip".toList ++ "x".toList), "club".toList, []⟩]).mature_themes_count : Rat) * (7/10) = 1/2
    rw [h1, h2, h3]
    norm_num

/-- C9 amended: extending the channel description (appending text to it)
never decreases any category count and never decreases the total adult
content score; monotonicity holds for the channel description because it
is matched whole, while appends to a video's title or description can
break a multi-word keyword at a field boundary or at the 500-character
truncation point. -/
theorem scorer_monotone_in_channel_description (videos : List Video) (d extra : Str) :
    (analyze_content_maturity videos d).educational_score
        ≤ (analyze_content_maturity videos (d ++ extra)).educational_score
    ∧ (analyze_content_maturity videos d).adult_keyword_frequency
        ≤ (analyze_content_maturity videos (d ++ extra)).adult_keyword_frequency
    ∧ (analyze_content_maturity videos d).drama_score
        ≤ (analyze_content_maturity videos (d ++ extra)).drama_score
    ∧ (analyze_content_maturity videos d).adult_personality_score
        ≤ (analyze_content_maturity videos (d ++ extra)).adult_personality_score
    ∧ (analyze_content_maturity videos d).mature_themes_score
        ≤ (analyze_content_maturity videos (d ++ extra)).mature_themes_score
    ∧ (analyze_content_maturity videos d).mature_game_count
        ≤ (analyze_content_maturity videos (d ++ extra)).mature_game_count
    ∧ (analyze_content_maturity videos d).profanity_frequency
        ≤ (analyze_content_maturity videos (d ++ extra)).profanity_frequency
    ∧ (analyze_content_maturity videos d).total_adult_content_score
        ≤ (analyze_content_maturity videos (d ++ extra)).total_adult_content_score := by
  obtain ⟨a1, a2, a3, a4, a5, a6, a7⟩ := counts_foldl_closed videos (countsInit (strLower d))
  obtain ⟨b1, b2, b3, b4, b5, b6, b7⟩ :=
    counts_foldl_closed videos (countsInit (strLower (d ++ extra)))
  have hm : ∀ (w : Nat) (kws : List Str),
      countPresentW w kws (strLower d) ≤ countPresentW w kws (strLower (d ++ extra)) := by
    intro w kws
    rw [strLower_append]
    exact countPresentW_mono w kws (fun kw h => strIn_append (strLower extra) h)
  have hedu : (List.foldl countsStep (countsInit (strLower d)) videos).educational_count
      ≤ (List.foldl countsStep (countsInit (strLower (d ++ extra))) videos).educational_count := by
    rw [a1, b1]; exact Nat.add_le_add_right (hm 2 educational_keywords) _
  have hexp : (List.foldl countsStep (countsInit (strLower d)) videos).explicit_count
      ≤ (List.foldl countsStep (countsInit (strLower (d ++ extra))) videos).explicit_count := by
    rw [a2, b2]; exact Nat.add_le_add_right (hm 3 explicit_adult_keywords) _
  have hdra : (List.foldl countsStep (countsInit (strLower d)) videos).drama_count
      ≤ (List.foldl countsStep (countsInit (strLower (d ++ extra))) videos).drama_count := by
    rw [a3, b3]; exact Nat.add_le_add_right (hm 2 drama_keywords) _
  have hgam : (List.foldl countsStep (countsInit (strLower d)) videos).mature_gaming_count
      ≤ (List.foldl countsStep (countsInit (strLower (d ++ extra))) videos).mature_gaming_count := by
    rw [a4, b4]; exact Nat.le_refl _
  have hpro : (List.foldl countsStep (countsInit (strLower d)) videos).profanity_count
      ≤ (List.foldl countsStep (countsInit (strLower (d ++ extra))) videos).profanity_count := by
    rw [a5, b5]; exact Nat.le_refl _
  have hper : (List.foldl countsStep (countsInit (strLower d)) videos).adult_personality_count
      ≤ (List.foldl countsStep (countsInit (strLower (d ++ extra))) videos).adult_personality_count := by
    rw [a6, b6]; exact Nat.add_le_add_right (hm 2 adult_personality_keywords) _
  have hthe : (List.foldl countsStep (countsInit (strLower d)) videos).mature_themes_count
      ≤ (List.foldl countsStep (countsInit (strLower (d ++ extra))) videos).mature_themes_count := by
    rw [a7, b7]; exact Nat.add_le_add_right (hm 2 mature_themes_keywords) _
  refine ⟨hedu, hexp, hdra, hper, hthe, hgam, hpro, ?_⟩
  show ((List.foldl countsStep (countsInit (strLower d)) videos).explicit_count : Rat)
      + ((List.foldl countsStep (countsInit (strLower d)) videos).adult_personality_count : Rat) * (1/2)
      + ((List.foldl countsStep (countsInit (strLower d)) videos).mature_themes_count : Rat) * (7/10)
    ≤ ((List.foldl countsStep (countsInit (strLower (d ++ extra))) videos).explicit_count : Rat)
      + ((List.foldl countsStep (countsInit (strLower (d ++ extra))) videos).adult_personality_count : Rat) * (1/2)
      + ((List.foldl countsStep (countsInit (strLower (d ++ extra))) videos).mature_themes_count : Rat) * (7/10)
  have c1 := (Nat.cast_le (α := Rat)).mpr hexp
  have c2 := (Nat.cast_le (α := Rat)).mpr hper
  have c3 := (Nat.cast_le (α := Rat)).mpr hthe
  have half_nonneg : (0 : Rat) ≤ 1/2 := by norm_num
  have sevenths_nonneg : (0 : Rat) ≤ 7/10 := by norm_num
  exact add_le_add (add_le_add c1 (mul_le_mul_of_nonneg_right c2 half_nonneg))
    (mul_le_mul_of_nonneg_right c3 sevenths_nonneg)

-- ---------------------------------------------------------------------------
-- Cache-key determinism (C4)
-- ---------------------------------------------------------------------------

theorem char_eq_of_toNat_eq {a b : Char} (h : a.toNat = b.toNat) : a = b :=
  Char.ext (UInt32.ext h)

theorem strLe_total : ∀ a b : Str, strLe a b = true ∨ strLe b a = true := by
  intro a
  induction a with
  | nil => intro b; exact Or.inl rfl
  | cons x s ih =>
    intro b
    cases b with
    | nil => exact Or.inr rfl
    | cons y t =>
      by_cases hxy : x = y
      · subst hxy
        rcases ih t with h | h
        · exact Or.inl (by simp [strLe, h])
        · exact Or.inr (by simp [strLe, h])
      · by_cases hlt : x.toNat < y.toNat
        · exact Or.inl (by simp [strLe, hxy, hlt])
        · have hyx : y ≠ x := fun h => hxy h.symm
          have hne : x.toNat ≠ y.toNat := fun h => hxy (char_eq_of_toNat_eq h)
          have hgt : y.toNat < x.toNat := by omega
          exact Or.inr (by simp [strLe, hyx, hgt])

theorem strLe_trans : ∀ a b c : Str, strLe a b = true → strLe b c = true →
    strLe a c = true := by
  intro a
  induction a with
  | nil => intro b c _ _; rfl
  | cons x s ih =>
    intro b c hab hbc
    cases b with
    | nil => simp [strLe] at hab
    | cons y t =>
      cases c with
      | nil => simp [strLe] at hbc
      | cons z u =>
        by_cases hxy : x = y
        · subst hxy
          by_cases hxz : x = z
          · subst hxz
            simp only [strLe, if_pos rfl] at hab hbc ⊢
            exact ih t u hab hbc
          · simp only [strLe, if_neg hxz] at hbc ⊢
            exact hbc
        · simp only [strLe, if_neg hxy] at hab
          have hxylt : x.toNat < y.toNat := by simpa using hab
          by_cases hyz : y = z
          · subst hyz
            simp [strLe, hxy, hxylt]
          · simp only [strLe, if_neg hyz] at hbc
            have hyzlt : y.toNat < z.toNat := by simpa using hbc
            have hxzlt : x.toNat < z.toNat := Nat.lt_trans hxylt hyzlt
            have hxz : x ≠ z := fun h => by rw [h] at hxzlt; omega
            simp [strLe, hxz, hxzlt]

theorem strLe_antisymm : ∀ a b : Str, strLe a b = true → strLe b a = true → a = b := by
  intro a
  induction a with
  | nil =>
    intro b _ hba
    cases b with
    | nil => rfl
    | cons y t => simp [strLe] at hba
  | cons x s ih =>
    intro b hab hba
    cases b with
    | nil => simp [strLe] at hab
    | cons y t =>
      by_cases hxy : x = y
      · subst hxy
        simp only [strLe, if_pos rfl] at hab hba
        rw [ih t hab hba]
      · simp only [strLe, if_neg hxy] at hab
        have h1 : x.toNat < y.toNat := by simpa using hab
        have hyx : y ≠ x := fun h => hxy h.symm
        simp only [strLe, if_neg hyx] at hba
        have h2 : y.toNat < x.toNat := by simpa using hba
        omega

instance : IsTotal (Str × Str) keyLe :=
  ⟨fun p q => strLe_total p.1 q.1⟩

instance : IsTrans (Str × Str) keyLe :=
  ⟨fun _ _ _ h1 h2 => strLe_trans _ _ _ h1 h2⟩

/-- The strict version of the key order, antisymmetric because two pairs
it relates in both directions would have equal and unequal keys. -/
def keyLt (p q : Str × Str) : Prop := keyLe p q ∧ p.1 ≠ q.1

instance : IsAntisymm (Str × Str) keyLt :=
  ⟨fun p q h1 h2 => absurd (strLe_antisymm p.1 q.1 h1.1 h2.1) h1.2⟩

/-- Sorting by key sends key-disjoint permutations of an object's pairs
to the same list. -/
theorem sortPairs_eq_of_perm {l₁ l₂ : List (Str × Str)} (p : l₁.Perm l₂)
    (h : l₁.Pairwise (fun a b => a.1 ≠ b.1)) : sortPairs l₁ = sortPairs l₂ := by
  have hsymm : ∀ {a b : Str × Str}, a.1 ≠ b.1 → b.1 ≠ a.1 := fun hab h => hab h.symm
  have hp1 : (sortPairs l₁).Perm l₁ := List.perm_insertionSort keyLe l₁
  have hp2 : (sortPairs l₂).Perm l₂ := List.perm_insertionSort keyLe l₂
  have hperm : (sortPairs l₁).Perm (sortPairs l₂) := hp1.trans (p.trans hp2.symm)
  have hs1 : (sortPairs l₁).Sorted keyLe := List.sorted_insertionSort keyLe l₁
  have hs2 : (sortPairs l₂).Sorted keyLe := List.sorted_insertionSort keyLe l₂
  have hne1 : (sortPairs l₁).Pairwise (fun a b => a.1 ≠ b.1) :=
    (hp1.pairwise_iff hsymm).mpr h
  have hne2 : (sortPairs l₂).Pairwise (fun a b => a.1 ≠ b.1) :=
    ((hp2.trans p.symm).pairwise_iff hsymm).mpr h
  have hs1' : (sortPairs l₁).Sorted keyLt := (hs1.and hne1).imp (fun hab => hab)
  have hs2' : (sortPairs l₂).Sorted keyLt := (hs2.and hne2).imp (fun hab => hab)
  exact List.eq_of_perm_of_sorted hperm hs1' hs2'

theorem dumpsObj_eq_map : ∀ l : List (Str × JVal),
    dumpsObj l = l.map (fun kv => (kv.1, dumps kv.2)) := by
  intro l
  induction l with
  | nil => rfl
  | cons kv rest ih => simp [dumpsObj, ih]

theorem bytesToHex_length : ∀ bs : List Nat, (bytesToHex bs).length = 2 * bs.length := by
  intro bs
  induction bs with
  | nil => rfl
  | cons b rest ih => simp [bytesToHex, ih]; omega

theorem md5Bytes_length (msg : List Nat) : (md5Bytes msg).length = 16 := by
  simp [md5Bytes, le4]

theorem get_cache_key_length (ep : Str) (l : List (Str × JVal)) :
    (get_cache_key ep l).length = 32 := by
  simp [get_cache_key, md5Hex, bytesToHex_length, md5Bytes_length]

/-- C4: `get_cache_key` is insertion-order independent and deterministic:
two parameter mappings with the same key/value contents in different
orders (a permutation with no duplicated key) hash to the same key; every
produced key has fixed length 32; and equal inputs give equal keys. -/
theorem cache_key_deterministic :
    (∀ (ep : Str) (l₁ l₂ : List (Str × JVal)), l₁.Perm l₂ →
        l₁.Pairwise (fun a b => a.1 ≠ b.1) →
        get_cache_key ep l₁ = get_cache_key ep l₂) ∧
    (∀ (ep : Str) (l : List (Str × JVal)), (get_cache_key ep l).length = 32) ∧
    (∀ (ep₁ ep₂ : Str) (l₁ l₂ : List (Str × JVal)), ep₁ = ep₂ → l₁ = l₂ →
        get_cache_key ep₁ l₁ = get_cache_key ep₂ l₂) := by
  refine ⟨?_, get_cache_key_length, ?_⟩
  · intro ep l₁ l₂ hperm hnodup
    have hobj : sortPairs (dumpsObj l₁) = sortPairs (dumpsObj l₂) := by
      apply sortPairs_eq_of_perm
      · rw [dumpsObj_eq_map, dumpsObj_eq_map]
        exact hperm.map _
      · rw [dumpsObj_eq_map]
        exact List.pairwise_map.mpr hnodup
    simp only [get_cache_key, dumps]
    rw [hobj]
  · intro ep₁ ep₂ l₁ l₂ h1 h2
    rw [h1, h2]

theorem cache_key_deterministic_witness :
    ([(("q".toList), JVal.jstr ("x".toList)), (("maxResults".toList), JVal.jnum 1)] :
        List (Str × JVal)).Perm
      [(("maxResults".toList), JVal.jnum 1), (("q".toList), JVal.jstr ("x".toList))] ∧
    get_cache_key ("search".toList)
        [(("q".toList), JVal.jstr ("x".toList)), (("maxResults".toList), JVal.jnum 1)]
      = get_cache_key ("search".toList)
        [(("maxResults".toList), JVal.jnum 1), (("q".toList), JVal.jstr ("x".toList))] ∧
    (get_cache_key ("search".toList)
        [(("q".toList), JVal.jstr ("x".toList)), (("maxResults".toList), JVal.jnum 1)]).length
      = 32 := by
  have hperm : ([(("q".toList), JVal.jstr ("x".toList)), (("maxResults".toList), JVal.jnum 1)] :
      List (Str × JVal)).Perm
        [(("maxResults".toList), JVal.jnum 1), (("q".toList), JVal.jstr ("x".toList))] :=
    List.Perm.swap (("maxResults".toList), JVal.jnum 1) (("q".toList), JVal.jstr ("x".toList)) []
  have hnodup : ([(("q".toList), JVal.jstr ("x".toList)), (("maxResults".toList), JVal.jnum 1)] :
      List (Str × JVal)).Pairwise (fun a b => a.1 ≠ b.1) := by
    refine List.pairwise_cons.mpr ⟨?_, List.pairwise_singleton _ _⟩
    intro b hb
    simp only [List.mem_singleton] at hb
    subst hb
    decide
  exact ⟨hperm, cache_key_deterministic.1 ("search".toList) _ _ hperm hnodup,
    cache_key_deterministic.2.1 ("search".toList) _⟩
